import Mathlib

/-!
Verification of the hls_m3u8 media-playlist core: a shallow embedding of
`src/media_playlist.rs` and `src/tags/master_playlist/media.rs`, together
with spec-modelled definitions for the collaborating modules (line
classifier, media segment, tag catalogue, error type) whose sources are not
part of the staged repository.  Durations are modelled as whole nanosecond
counts (Rust `std::time::Duration`); playlist text is modelled at the
classified-line level (the output of the line classifier of spec section
4.2): a list of `Line` values, each a typed tag or a URI string.
-/

namespace HlsM3u8

/-- Durations as nanosecond counts, mirroring `std::time::Duration`
(`as_secs` = value / 10^9, `subsec_nanos` = value % 10^9). -/
abbrev Duration := Nat

/-- `Duration::as_secs`. -/
def durSecs (d : Duration) : Nat := d / 1000000000

/-- `Duration::subsec_nanos`. -/
def durSubsecNanos (d : Duration) : Nat := d % 1000000000

/-- `Duration::from_secs`. -/
def durFromSecs (n : Nat) : Duration := n * 1000000000

/-- The protocol version enumeration (`types::ProtocolVersion`), ordered
V1 < V2 < ... < V7. -/
inductive ProtocolVersion
  | v1 | v2 | v3 | v4 | v5 | v6 | v7
deriving DecidableEq

/-- Position of a version in the enumeration's natural order. -/
def ProtocolVersion.toNat : ProtocolVersion → Nat
  | .v1 => 1 | .v2 => 2 | .v3 => 3 | .v4 => 4 | .v5 => 5 | .v6 => 6 | .v7 => 7

/-- Maximum of two versions under the enumeration's natural order. -/
def ProtocolVersion.max (a b : ProtocolVersion) : ProtocolVersion :=
  if a.toNat ≤ b.toNat then b else a

/-- `types::MediaType`: the TYPE attribute of a rendition tag. -/
inductive MediaType
  | audio | video | subtitles | closedCaptions
deriving DecidableEq

/-- `types::InStreamId`: the INSTREAM-ID attribute values (CC1-CC4 and the
SERVICEn block). -/
inductive InStreamId
  | cc1 | cc2 | cc3 | cc4
  | service (n : Nat)
deriving DecidableEq

/-- `types::Channels` (the CHANNELS attribute): a channel count. -/
structure Channels where
  channelNumber : Nat
deriving DecidableEq

/-- The `#EXTM3U` start-of-file marker tag. -/
structure ExtM3u deriving DecidableEq

/-- The `#EXT-X-VERSION` tag. -/
structure ExtXVersion where
  version : ProtocolVersion
deriving DecidableEq

/-- The `#EXT-X-TARGETDURATION` tag: carries a duration. -/
structure ExtXTargetDuration where
  duration : Duration
deriving DecidableEq

/-- The `#EXT-X-MEDIA-SEQUENCE` tag. -/
structure ExtXMediaSequence where
  seqNum : Nat
deriving DecidableEq

/-- The `#EXT-X-DISCONTINUITY-SEQUENCE` tag. -/
structure ExtXDiscontinuitySequence where
  seqNum : Nat
deriving DecidableEq

/-- The value of an `#EXT-X-PLAYLIST-TYPE` tag. -/
inductive PlaylistType
  | event | vod
deriving DecidableEq

/-- The `#EXT-X-PLAYLIST-TYPE` tag. -/
structure ExtXPlaylistType where
  playlistType : PlaylistType
deriving DecidableEq

/-- The `#EXT-X-I-FRAMES-ONLY` tag (no parameters). -/
structure ExtXIFramesOnly deriving DecidableEq

/-- The `#EXT-X-INDEPENDENT-SEGMENTS` tag (no parameters). -/
structure ExtXIndependentSegments deriving DecidableEq

/-- The `#EXT-X-ENDLIST` tag (no parameters). -/
structure ExtXEndList deriving DecidableEq

/-- The `#EXT-X-START` tag: a time offset and a PRECISE flag. -/
structure ExtXStart where
  timeOffsetMillis : Int
  precise : Bool
deriving DecidableEq

/-- Modelled from the spec: the decryption key descriptor of `tags::ExtXKey`
(its file is not under src/): "a decryption key descriptor (method, URI, IV,
format, format-versions)". -/
structure ExtXKey where
  method : String
  uri : Option String
  iv : Option String
  keyFormat : Option String
  keyFormatVersions : Option String
deriving DecidableEq

/-- A byte range: a length and an optional explicit start offset. -/
structure ByteRange where
  length : Nat
  start : Option Nat
deriving DecidableEq

/-- The `#EXT-X-BYTERANGE` tag: carries a byte range. -/
structure ExtXByteRange where
  range : ByteRange
deriving DecidableEq

/-- `ExtXByteRange::to_range`. -/
def ExtXByteRange.toRange (t : ExtXByteRange) : ByteRange := t.range

/-- Modelled from the spec: the `#EXT-X-MAP` initialization-map tag (its
file is not under src/): a URI, an optional byte range, and the key set
captured when the tag is seen (section 3, "an initialization-map tag
captures the active key set at the moment it is seen"). -/
structure ExtXMap where
  uri : String
  range : Option ByteRange
  keys : List ExtXKey
deriving DecidableEq

/-- `ExtXMap::set_keys`. -/
def ExtXMap.setKeys (t : ExtXMap) (ks : List ExtXKey) : ExtXMap :=
  { t with keys := ks }

/-- The `#EXTINF` tag: the mandatory segment duration plus an optional
title. -/
structure ExtInf where
  duration : Duration
  title : Option String
deriving DecidableEq

/-- The `#EXT-X-DISCONTINUITY` marker tag (no parameters). -/
structure ExtXDiscontinuity deriving DecidableEq

/-- The `#EXT-X-PROGRAM-DATE-TIME` tag, its date-time kept opaque. -/
structure ExtXProgramDateTime where
  dateTime : String
deriving DecidableEq

/-- The `#EXT-X-DATERANGE` tag, modelled by its mandatory ID. -/
structure ExtXDateRange where
  id : String
deriving DecidableEq

/-- The `#EXT-X-MEDIA` rendition tag (`tags::master_playlist::media`),
field for field as in the source. -/
structure ExtXMedia where
  media_type : MediaType
  uri : Option String
  group_id : String
  language : Option String
  assoc_language : Option String
  name : String
  is_default : Bool
  is_autoselect : Bool
  is_forced : Bool
  instream_id : Option InStreamId
  characteristics : Option String
  channels : Option Channels
deriving DecidableEq

/-- The `#EXT-X-STREAM-INF` variant-stream tag (master-only; only its
presence matters to the media-playlist assembler). -/
structure ExtXStreamInf where
  bandwidth : Nat
deriving DecidableEq

/-- The `#EXT-X-I-FRAME-STREAM-INF` tag (master-only). -/
structure ExtXIFrameStreamInf where
  uri : String
deriving DecidableEq

/-- The `#EXT-X-SESSION-DATA` tag (master-only). -/
structure ExtXSessionData where
  dataId : String
deriving DecidableEq

/-- The `#EXT-X-SESSION-KEY` tag (master-only). -/
structure ExtXSessionKey where
  key : ExtXKey
deriving DecidableEq

/-- An unrecognized directive, kept verbatim. -/
structure UnknownTag where
  text : String
deriving DecidableEq

/-- The closed tag sum (`line::Tag`), one variant per recognized directive
kind plus the unrecognized variant. -/
inductive Tag
  | extM3u (t : ExtM3u)
  | extXVersion (t : ExtXVersion)
  | extInf (t : ExtInf)
  | extXByteRange (t : ExtXByteRange)
  | extXDateRange (t : ExtXDateRange)
  | extXDiscontinuity (t : ExtXDiscontinuity)
  | extXKey (t : ExtXKey)
  | extXMap (t : ExtXMap)
  | extXProgramDateTime (t : ExtXProgramDateTime)
  | extXTargetDuration (t : ExtXTargetDuration)
  | extXMediaSequence (t : ExtXMediaSequence)
  | extXDiscontinuitySequence (t : ExtXDiscontinuitySequence)
  | extXEndList (t : ExtXEndList)
  | extXPlaylistType (t : ExtXPlaylistType)
  | extXIFramesOnly (t : ExtXIFramesOnly)
  | extXMedia (t : ExtXMedia)
  | extXStreamInf (t : ExtXStreamInf)
  | extXIFrameStreamInf (t : ExtXIFrameStreamInf)
  | extXSessionData (t : ExtXSessionData)
  | extXSessionKey (t : ExtXSessionKey)
  | extXIndependentSegments (t : ExtXIndependentSegments)
  | extXStart (t : ExtXStart)
  | unknown (t : UnknownTag)
deriving DecidableEq

/-- A classified line (`line::Line`): a typed tag line or a URI line. -/
inductive Line
  | tag (t : Tag)
  | uri (u : String)
deriving DecidableEq

/-- Modelled from the spec: the error kinds of section 7 (`error::Error` is
not under src/): `InvalidInput`, `Custom(message)`, `MissingAttribute`,
`UnexpectedAttribute`, `UnexpectedTag`, and the wrapper for builder
errors. -/
inductive Error
  | invalidInput
  | custom (msg : String)
  | missingAttribute (attr : String)
  | unexpectedAttribute (attr : String)
  | unexpectedTag (t : Tag)
  | builderError (msg : String)
deriving DecidableEq

/-- Modelled from the spec: the human-readable rendering of an error
(`Display for Error` is not under src/); only the text of `Custom` matters
to the staged code, which builds it with `format!`. -/
def Error.toMessage : Error → String
  | .invalidInput => "invalid input"
  | .custom m => m
  | .missingAttribute a => "missing attribute: " ++ a
  | .unexpectedAttribute a => "unexpected attribute: " ++ a
  | .unexpectedTag _ => "unexpected tag"
  | .builderError m => m

/-- Modelled from the spec: a media segment (`media_segment::MediaSegment`
is not under src/): the mandatory duration+title tag, the optional
byte-range / discontinuity / initialization-map / program-date-time /
date-range tags, the resolved key set, and the URI (spec section 3). -/
structure MediaSegment where
  keys : List ExtXKey
  map_tag : Option ExtXMap
  byte_range_tag : Option ExtXByteRange
  date_range_tag : Option ExtXDateRange
  discontinuity_tag : Option ExtXDiscontinuity
  inf_tag : ExtInf
  program_date_time_tag : Option ExtXProgramDateTime
  uri : String
deriving DecidableEq

/-- Modelled from the spec: the draft/builder form of a media segment
(derive_builder on `MediaSegment`); every field optional until `build`. -/
structure MediaSegmentBuilder where
  keys : Option (List ExtXKey) := none
  map_tag : Option ExtXMap := none
  byte_range_tag : Option ExtXByteRange := none
  date_range_tag : Option ExtXDateRange := none
  discontinuity_tag : Option ExtXDiscontinuity := none
  inf_tag : Option ExtInf := none
  program_date_time_tag : Option ExtXProgramDateTime := none
  uri : Option String := none
deriving DecidableEq

/-- Modelled from the spec: `MediaSegmentBuilder::build` freezes the draft;
the duration+title tag and the URI are mandatory (spec section 3), the
other fields default. -/
def MediaSegmentBuilder.build (b : MediaSegmentBuilder) :
    Except String MediaSegment :=
  match b.inf_tag with
  | none => .error ("inf_tag: field not set")
  | some inf =>
    match b.uri with
    | none => .error ("uri: field not set")
    | some u =>
      .ok { keys := b.keys.getD [], map_tag := b.map_tag,
            byte_range_tag := b.byte_range_tag,
            date_range_tag := b.date_range_tag,
            discontinuity_tag := b.discontinuity_tag, inf_tag := inf,
            program_date_time_tag := b.program_date_time_tag, uri := u }

/-- The builder of `MediaPlaylist` (derive_builder on the struct of
`media_playlist.rs`): one optional slot per playlist field. -/
structure MediaPlaylistBuilder where
  target_duration_tag : Option ExtXTargetDuration := none
  media_sequence_tag : Option ExtXMediaSequence := none
  discontinuity_sequence_tag : Option ExtXDiscontinuitySequence := none
  playlist_type_tag : Option ExtXPlaylistType := none
  i_frames_only_tag : Option ExtXIFramesOnly := none
  independent_segments_tag : Option ExtXIndependentSegments := none
  start_tag : Option ExtXStart := none
  end_list_tag : Option ExtXEndList := none
  segments : Option (List MediaSegment) := none
  allowable_excess_duration : Option Duration := none
deriving DecidableEq

/-- `MediaPlaylist` (`media_playlist.rs` lines 20-57), field for field. -/
structure MediaPlaylist where
  target_duration_tag : ExtXTargetDuration
  media_sequence_tag : Option ExtXMediaSequence
  discontinuity_sequence_tag : Option ExtXDiscontinuitySequence
  playlist_type_tag : Option ExtXPlaylistType
  i_frames_only_tag : Option ExtXIFramesOnly
  independent_segments_tag : Option ExtXIndependentSegments
  start_tag : Option ExtXStart
  end_list_tag : Option ExtXEndList
  segments : List MediaSegment
  allowable_excess_duration : Duration
deriving DecidableEq

/-- The rounding of `validate_media_segments` (lines 75-81): a segment
duration is rounded down to whole seconds when its sub-second part is below
half a second and up otherwise. -/
def roundToSeconds (d : Duration) : Duration :=
  if durSubsecNanos d < 500000000 then durFromSecs (durSecs d)
  else durFromSecs (durSecs d + 1)

/-- The message of the `Error::custom` raised for an oversized segment
(`media_playlist.rs` lines 92-98): it names the actual duration, the
maximum, the target duration and the segment's URI. -/
def tooLargeSegmentDurationMsg (actual maxDur target : Duration)
    (uri : String) : String :=
  "Too large segment duration: actual=" ++ toString actual ++
  ", max=" ++ toString maxDur ++ ", target_duration=" ++ toString target ++
  ", uri=" ++ uri

/-- The duration bound a segment is checked against
(`validate_media_segments` lines 83-89): target plus the allowable excess,
target alone when the excess is unset. -/
def maxSegDuration (target : Duration) (excess : Option Duration) : Duration :=
  match excess with
  | some v => target + v
  | none => target

/-- The per-segment loop of `MediaPlaylistBuilder::validate_media_segments`
(lines 72-114): the duration bound check followed by the byte-range
continuation check, threading `last_range_uri`. -/
def validateSegmentsLoop (target : Duration) (excess : Option Duration)
    (lastRangeUri : Option String) :
    List MediaSegment → Except Error Unit
  | [] => .ok ()
  | s :: rest =>
    let segmentDuration := s.inf_tag.duration
    let rounded := roundToSeconds segmentDuration
    let maxSegmentDuration := maxSegDuration target excess
    if rounded > maxSegmentDuration then
      .error (.custom (tooLargeSegmentDurationMsg segmentDuration
        maxSegmentDuration target s.uri))
    else
      match s.byte_range_tag with
      | some tag =>
        if tag.toRange.start = none then
          match lastRangeUri with
          | none => .error .invalidInput
          | some lastUri =>
            if lastUri = s.uri then
              validateSegmentsLoop target excess lastRangeUri rest
            else .error .invalidInput
        else validateSegmentsLoop target excess (some s.uri) rest
      | none => validateSegmentsLoop target excess none rest

/-- `MediaPlaylistBuilder::validate_media_segments` (lines 69-117). -/
def MediaPlaylistBuilder.validateMediaSegments (b : MediaPlaylistBuilder)
    (target : Duration) : Except Error Unit :=
  match b.segments with
  | some segs => validateSegmentsLoop target b.allowable_excess_duration none segs
  | none => .ok ()

/-- `MediaPlaylistBuilder::validate` (lines 60-67): run the segment checks
when a target duration is set, stringifying the error. -/
def MediaPlaylistBuilder.validate (b : MediaPlaylistBuilder) :
    Except String Unit :=
  match b.target_duration_tag with
  | some td =>
    match b.validateMediaSegments td.duration with
    | .error e => .error e.toMessage
    | .ok _ => .ok ()
  | none => .ok ()

/-- The derive_builder `build`: validate, then unwrap the two required
fields (target duration, segments) in declaration order; defaulted fields
fall back to their defaults (`allowable_excess_duration` to zero). -/
def MediaPlaylistBuilder.build (b : MediaPlaylistBuilder) :
    Except String MediaPlaylist :=
  match b.validate with
  | .error e => .error e
  | .ok _ =>
    match b.target_duration_tag with
    | none => .error ("target_duration_tag: field not set")
    | some td =>
      match b.segments with
      | none => .error ("segments: field not set")
      | some segs =>
        .ok { target_duration_tag := td,
              media_sequence_tag := b.media_sequence_tag,
              discontinuity_sequence_tag := b.discontinuity_sequence_tag,
              playlist_type_tag := b.playlist_type_tag,
              i_frames_only_tag := b.i_frames_only_tag,
              independent_segments_tag := b.independent_segments_tag,
              start_tag := b.start_tag,
              end_list_tag := b.end_list_tag,
              segments := segs,
              allowable_excess_duration :=
                b.allowable_excess_duration.getD 0 }

/-- Decidable equality of parse results, so concrete runs can be settled
by evaluation. -/
instance {ε α : Type} [DecidableEq ε] [DecidableEq α] :
    DecidableEq (Except ε α) := fun a b =>
  match a, b with
  | .ok x, .ok y =>
    if h : x = y then .isTrue (by rw [h])
    else .isFalse (fun hh => h (Except.ok.inj hh))
  | .error x, .error y =>
    if h : x = y then .isTrue (by rw [h])
    else .isFalse (fun hh => h (Except.error.inj hh))
  | .ok _, .error _ => .isFalse (fun hh => Except.noConfusion hh)
  | .error _, .ok _ => .isFalse (fun hh => Except.noConfusion hh)

/-- The local accumulator state of `parse_media_playlist` (lines 243-249):
the pending segment builder, the finalized segments, the
segment-in-progress and discontinuity-seen flags, the rolling key list and
the playlist builder being filled. -/
structure ParseState where
  segment : MediaSegmentBuilder
  segments : List MediaSegment
  segmentInProgress : Bool
  hasDiscontinuityTag : Bool
  availableKeyTags : List ExtXKey
  builder : MediaPlaylistBuilder
deriving DecidableEq

/-- The fresh state a parse call starts from, around a given playlist
builder. -/
def initParseState (b : MediaPlaylistBuilder) : ParseState :=
  { segment := {}, segments := [], segmentInProgress := false,
    hasDiscontinuityTag := false, availableKeyTags := [], builder := b }

/-- The key-tag update of `parse_media_playlist` (lines 275-295), exactly
as written: when the rolling list is empty it is mapped through the
same-key-format replacement, otherwise the new key is pushed. -/
def keyTagStep (t : ExtXKey) (keys : List ExtXKey) : List ExtXKey :=
  if keys.isEmpty then
    keys.map (fun k => if t.keyFormat = k.keyFormat then t else k)
  else keys ++ [t]

/-- One tag line of `parse_media_playlist`'s loop after the first line
(lines 260-351): the per-variant transitions of the match. -/
def stepTag (tag : Tag) (st : ParseState) : Except Error ParseState :=
  match tag with
  | .extM3u _ => .error .invalidInput
  | .extInf t =>
    .ok { st with segmentInProgress := true,
                  segment := { st.segment with inf_tag := some t } }
  | .extXByteRange t =>
    .ok { st with segmentInProgress := true,
                  segment := { st.segment with byte_range_tag := some t } }
  | .extXDiscontinuity t =>
    .ok { st with hasDiscontinuityTag := true, segmentInProgress := true,
                  segment := { st.segment with discontinuity_tag := some t } }
  | .extXKey t =>
    .ok { st with segmentInProgress := true,
                  availableKeyTags := keyTagStep t st.availableKeyTags }
  | .extXMap t =>
    .ok { st with segmentInProgress := true,
                  segment := { st.segment with
                    map_tag := some (t.setKeys st.availableKeyTags) } }
  | .extXProgramDateTime t =>
    .ok { st with segmentInProgress := true,
                  segment := { st.segment with program_date_time_tag := some t } }
  | .extXDateRange t =>
    .ok { st with segmentInProgress := true,
                  segment := { st.segment with date_range_tag := some t } }
  | .extXTargetDuration t =>
    .ok { st with builder := { st.builder with target_duration_tag := some t } }
  | .extXMediaSequence t =>
    .ok { st with builder := { st.builder with media_sequence_tag := some t } }
  | .extXDiscontinuitySequence t =>
    if st.segments.isEmpty then .error .invalidInput
    else if st.hasDiscontinuityTag then .error .invalidInput
    else .ok { st with builder :=
      { st.builder with discontinuity_sequence_tag := some t } }
  | .extXEndList t =>
    .ok { st with builder := { st.builder with end_list_tag := some t } }
  | .extXPlaylistType t =>
    .ok { st with builder := { st.builder with playlist_type_tag := some t } }
  | .extXIFramesOnly t =>
    .ok { st with builder := { st.builder with i_frames_only_tag := some t } }
  | .extXMedia _ => .error (.unexpectedTag tag)
  | .extXStreamInf _ => .error (.unexpectedTag tag)
  | .extXIFrameStreamInf _ => .error (.unexpectedTag tag)
  | .extXSessionData _ => .error (.unexpectedTag tag)
  | .extXSessionKey _ => .error (.unexpectedTag tag)
  | .extXIndependentSegments t =>
    .ok { st with builder := { st.builder with independent_segments_tag := some t } }
  | .extXStart t =>
    .ok { st with builder := { st.builder with start_tag := some t } }
  | .unknown _ => .ok st
  | .extXVersion _ => .ok st

/-- A URI line (lines 353-359): set the URI and the currently active keys
on the pending segment, freeze it, append it and clear the pending state. -/
def stepUri (u : String) (st : ParseState) : Except Error ParseState :=
  let sb := { st.segment with uri := some u, keys := some st.availableKeyTags }
  match sb.build with
  | .error e => .error (.builderError e)
  | .ok seg =>
    .ok { st with segment := {}, segments := st.segments ++ [seg],
                  segmentInProgress := false }

/-- One classified line after the first. -/
def runLine (l : Line) (st : ParseState) : Except Error ParseState :=
  match l with
  | .tag t => stepTag t st
  | .uri u => stepUri u st

/-- The loop of `parse_media_playlist` over every line after the first. -/
def runRest : List Line → ParseState → Except Error ParseState
  | [], st => .ok st
  | l :: rest, st =>
    match runLine l st with
    | .error e => .error e
    | .ok st2 => runRest rest st2

/-- The end of `parse_media_playlist` (lines 363-368): a still-pending
segment is fatal, otherwise the collected segments are installed and the
playlist builder is frozen. -/
def finishParse (st : ParseState) : Except Error MediaPlaylist :=
  if st.segmentInProgress then .error .invalidInput
  else
    match ({ st.builder with segments := some st.segments } :
        MediaPlaylistBuilder).build with
    | .error e => .error (.builderError e)
    | .ok p => .ok p

/-- `parse_media_playlist` (lines 239-369) over the classified-line stream:
the first line must be the `#EXTM3U` tag (any other tag is the fatal
Custom error of line 256; a URI first line is processed like any other URI
line, exactly as in the source where the index-zero check sits inside the
tag arm only). -/
def parseMediaPlaylist (lines : List Line) (builder : MediaPlaylistBuilder) :
    Except Error MediaPlaylist :=
  match lines with
  | [] => finishParse (initParseState builder)
  | first :: rest =>
    match first with
    | .tag t =>
      if t = .extM3u {} then
        match runRest rest (initParseState builder) with
        | .error e => .error e
        | .ok st => finishParse st
      else .error (.custom ("m3u8 doesn't start with #EXTM3U"))
    | .uri u =>
      match stepUri u (initParseState builder) with
      | .error e => .error e
      | .ok st =>
        match runRest rest st with
        | .error e => .error e
        | .ok st2 => finishParse st2

/-- `FromStr for MediaPlaylist` (lines 371-377): parse with a default
builder. -/
def mediaPlaylistFromLines (lines : List Line) : Except Error MediaPlaylist :=
  parseMediaPlaylist lines {}

/-- Modelled from the spec: per-tag minimum versions of the tag files not
under src/ — "most tags require only the lowest version" (section 4.5), so
each of these reports V1 from its fields. -/
def ExtXTargetDuration.requiredVersion (_ : ExtXTargetDuration) :
    ProtocolVersion := .v1

/-- Modelled from the spec: see `ExtXTargetDuration.requiredVersion`. -/
def ExtXMediaSequence.requiredVersion (_ : ExtXMediaSequence) :
    ProtocolVersion := .v1

/-- Modelled from the spec: see `ExtXTargetDuration.requiredVersion`. -/
def ExtXDiscontinuitySequence.requiredVersion (_ : ExtXDiscontinuitySequence) :
    ProtocolVersion := .v1

/-- Modelled from the spec: see `ExtXTargetDuration.requiredVersion`. -/
def ExtXPlaylistType.requiredVersion (_ : ExtXPlaylistType) :
    ProtocolVersion := .v1

/-- Modelled from the spec: see `ExtXTargetDuration.requiredVersion`. -/
def ExtXIFramesOnly.requiredVersion (_ : ExtXIFramesOnly) :
    ProtocolVersion := .v1

/-- Modelled from the spec: see `ExtXTargetDuration.requiredVersion`. -/
def ExtXIndependentSegments.requiredVersion (_ : ExtXIndependentSegments) :
    ProtocolVersion := .v1

/-- Modelled from the spec: see `ExtXTargetDuration.requiredVersion`. -/
def ExtXStart.requiredVersion (_ : ExtXStart) : ProtocolVersion := .v1

/-- Modelled from the spec: see `ExtXTargetDuration.requiredVersion`. -/
def ExtXEndList.requiredVersion (_ : ExtXEndList) : ProtocolVersion := .v1

/-- Modelled from the spec: a media segment's own minimum version (its file
is not under src/): the maximum over its tags, each of which reports the
lowest version per section 4.5. -/
def MediaSegment.requiredVersion (_ : MediaSegment) : ProtocolVersion := .v1

/-- The version an optional field forces: its own when set, V1 when not
(the `required_version!` macro over `Option` fields). -/
def optionRequiredVersion {α : Type} (f : α → ProtocolVersion) :
    Option α → ProtocolVersion
  | none => .v1
  | some t => f t

/-- The version a segment sequence forces: the maximum over its members,
V1 when empty. -/
def segmentsRequiredVersion (segs : List MediaSegment) : ProtocolVersion :=
  List.foldl (fun acc s => acc.max s.requiredVersion) .v1 segs

/-- `RequiredVersion for MediaPlaylist` (lines 188-202): the maximum, under
the version order, over the target-duration tag, every optional
document-level tag and the segments. -/
def MediaPlaylist.requiredVersion (p : MediaPlaylist) : ProtocolVersion :=
  List.foldl ProtocolVersion.max .v1
    [p.target_duration_tag.requiredVersion,
     optionRequiredVersion ExtXMediaSequence.requiredVersion p.media_sequence_tag,
     optionRequiredVersion ExtXDiscontinuitySequence.requiredVersion
       p.discontinuity_sequence_tag,
     optionRequiredVersion ExtXPlaylistType.requiredVersion p.playlist_type_tag,
     optionRequiredVersion ExtXIFramesOnly.requiredVersion p.i_frames_only_tag,
     optionRequiredVersion ExtXIndependentSegments.requiredVersion
       p.independent_segments_tag,
     optionRequiredVersion ExtXStart.requiredVersion p.start_tag,
     optionRequiredVersion ExtXEndList.requiredVersion p.end_list_tag,
     segmentsRequiredVersion p.segments]

/-- Modelled from the spec: a media segment's rendering (its Display is
not under src/): per-segment tag lines for the fields actually set,
then the URI line (section 4.6). -/
def MediaSegment.render (s : MediaSegment) : List Line :=
  (s.keys.map (fun k => Line.tag (.extXKey k)))
  ++ (match s.map_tag with
      | some t => [Line.tag (.extXMap t)]
      | none => [])
  ++ (match s.byte_range_tag with
      | some t => [Line.tag (.extXByteRange t)]
      | none => [])
  ++ (match s.date_range_tag with
      | some t => [Line.tag (.extXDateRange t)]
      | none => [])
  ++ (match s.discontinuity_tag with
      | some t => [Line.tag (.extXDiscontinuity t)]
      | none => [])
  ++ [Line.tag (.extInf s.inf_tag)]
  ++ (match s.program_date_time_tag with
      | some t => [Line.tag (.extXProgramDateTime t)]
      | none => [])
  ++ [Line.uri s.uri]

/-- The lines of a segment sequence, in order. -/
def renderSegments : List MediaSegment → List Line
  | [] => []
  | s :: rest => s.render ++ renderSegments rest

/-- The line an optional document-level tag contributes. -/
def optTagLine {α : Type} (f : α → Tag) : Option α → List Line
  | some t => [Line.tag (f t)]
  | none => []

/-- `Display for MediaPlaylist` (lines 204-237) at the classified-line
level: the `#EXTM3U` marker, the version directive only when the required
version is above V1, the document-level tags in field order, the segments,
and the end-list marker last. -/
def MediaPlaylist.render (p : MediaPlaylist) : List Line :=
  [Line.tag (.extM3u {})]
  ++ (if p.requiredVersion ≠ .v1 then
        [Line.tag (.extXVersion { version := p.requiredVersion })]
      else [])
  ++ [Line.tag (.extXTargetDuration p.target_duration_tag)]
  ++ optTagLine Tag.extXMediaSequence p.media_sequence_tag
  ++ optTagLine Tag.extXDiscontinuitySequence p.discontinuity_sequence_tag
  ++ optTagLine Tag.extXPlaylistType p.playlist_type_tag
  ++ optTagLine Tag.extXIFramesOnly p.i_frames_only_tag
  ++ optTagLine Tag.extXIndependentSegments p.independent_segments_tag
  ++ optTagLine Tag.extXStart p.start_tag
  ++ renderSegments p.segments
  ++ optTagLine Tag.extXEndList p.end_list_tag

/-- `ExtXMedia::new` (`media.rs` lines 149-164): type, group and name as
given, everything else unset or false. -/
def ExtXMedia.new (media_type : MediaType) (group_id name : String) :
    ExtXMedia :=
  { media_type := media_type, uri := none, group_id := group_id,
    language := none, assoc_language := none, name := name,
    is_default := false, is_autoselect := false, is_forced := false,
    instream_id := none, characteristics := none, channels := none }

/-- The builder of `ExtXMedia` (derive_builder on the struct of
`media.rs`): one optional slot per field. -/
structure ExtXMediaBuilder where
  media_type : Option MediaType := none
  uri : Option String := none
  group_id : Option String := none
  language : Option String := none
  assoc_language : Option String := none
  name : Option String := none
  is_default : Option Bool := none
  is_autoselect : Option Bool := none
  is_forced : Option Bool := none
  instream_id : Option InStreamId := none
  characteristics : Option String := none
  channels : Option Channels := none
deriving DecidableEq

/-- The message of the Custom error for DEFAULT=YES with AUTOSELECT=NO
(`media.rs` lines 130-135). -/
def defaultAutoselectMsg : String :=
  "If `DEFAULT` is true and `AUTOSELECT` is present, `AUTOSELECT` has to be true too!"

/-- `ExtXMediaBuilder::validate` (`media.rs` lines 109-142), check for
check in source order. -/
def ExtXMediaBuilder.validate (b : ExtXMediaBuilder) : Except String Unit :=
  match b.media_type with
  | none => .error (Error.missingAttribute "MEDIA-TYPE").toMessage
  | some mt =>
    if mt = .subtitles ∧ b.uri = none then
      .error (Error.missingAttribute "URI").toMessage
    else if mt = .closedCaptions ∧ b.uri ≠ none then
      .error (Error.unexpectedAttribute "URI").toMessage
    else if mt = .closedCaptions ∧ b.instream_id = none then
      .error (Error.missingAttribute "INSTREAM-ID").toMessage
    else if mt ≠ .closedCaptions ∧ b.instream_id ≠ none then
      .error (Error.unexpectedAttribute "INSTREAM-ID").toMessage
    else if b.is_default.getD false = true ∧ b.is_autoselect.getD true = false then
      .error (Error.custom defaultAutoselectMsg).toMessage
    else if mt ≠ .subtitles ∧ b.is_forced ≠ none then
      .error Error.invalidInput.toMessage
    else .ok ()

/-- The derive_builder `build` for `ExtXMedia`: validate, then unwrap the
required fields (media type, group id, name) in declaration order;
defaulted fields fall back (the flags to false, the options to none). -/
def ExtXMediaBuilder.build (b : ExtXMediaBuilder) : Except String ExtXMedia :=
  match b.validate with
  | .error e => .error e
  | .ok _ =>
    match b.media_type with
    | none => .error ("media_type: field not set")
    | some mt =>
      match b.group_id with
      | none => .error ("group_id: field not set")
      | some g =>
        match b.name with
        | none => .error ("name: field not set")
        | some n =>
          .ok { media_type := mt, uri := b.uri, group_id := g,
                language := b.language, assoc_language := b.assoc_language,
                name := n, is_default := b.is_default.getD false,
                is_autoselect := b.is_autoselect.getD false,
                is_forced := b.is_forced.getD false,
                instream_id := b.instream_id,
                characteristics := b.characteristics,
                channels := b.channels }

/-- `RequiredVersion for ExtXMedia` (`media.rs` lines 633-644): V7 for an
in-stream identifier other than CC1-CC4, V1 otherwise (including when
unset). -/
def ExtXMedia.requiredVersion (m : ExtXMedia) : ProtocolVersion :=
  match m.instream_id with
  | none => .v1
  | some .cc1 => .v1
  | some .cc2 => .v1
  | some .cc3 => .v1
  | some .cc4 => .v1
  | some _ => .v7

/-- Modelled from the spec: `utils::quote` (not under src/) wraps a value
in double quotes. -/
def quoteAttr (s : String) : String := "\"" ++ s ++ "\""

/-- Modelled from the spec: `Display for MediaType` (not under src/), the
attribute tokens the tests of `media.rs` exhibit. -/
def MediaType.render : MediaType → String
  | .audio => "AUDIO"
  | .video => "VIDEO"
  | .subtitles => "SUBTITLES"
  | .closedCaptions => "CLOSED-CAPTIONS"

/-- Modelled from the spec: `Display for InStreamId` (not under src/). -/
def InStreamId.render : InStreamId → String
  | .cc1 => "CC1"
  | .cc2 => "CC2"
  | .cc3 => "CC3"
  | .cc4 => "CC4"
  | .service n => "SERVICE" ++ toString n

/-- Modelled from the spec: `Display for Channels` (not under src/). -/
def Channels.render (c : Channels) : String := toString c.channelNumber

/-- `Display for ExtXMedia` (`media.rs` lines 646-681), attribute for
attribute in source order. -/
def ExtXMedia.render (m : ExtXMedia) : String :=
  "#EXT-X-MEDIA:" ++ "TYPE=" ++ m.media_type.render
  ++ (match m.uri with
      | some v => ",URI=" ++ quoteAttr v
      | none => "")
  ++ ",GROUP-ID=" ++ quoteAttr m.group_id
  ++ (match m.language with
      | some v => ",LANGUAGE=" ++ quoteAttr v
      | none => "")
  ++ (match m.assoc_language with
      | some v => ",ASSOC-LANGUAGE=" ++ quoteAttr v
      | none => "")
  ++ ",NAME=" ++ quoteAttr m.name
  ++ (if m.is_default then ",DEFAULT=YES" else "")
  ++ (if m.is_autoselect then ",AUTOSELECT=YES" else "")
  ++ (if m.is_forced then ",FORCED=YES" else "")
  ++ (match m.instream_id with
      | some v => ",INSTREAM-ID=" ++ quoteAttr v.render
      | none => "")
  ++ (match m.characteristics with
      | some v => ",CHARACTERISTICS=" ++ quoteAttr v
      | none => "")
  ++ (match m.channels with
      | some v => ",CHANNELS=" ++ quoteAttr v.render
      | none => "")

/-- Whether a segment carries a byte-range tag at all. -/
def MediaSegment.hasByteRange (s : MediaSegment) : Bool :=
  s.byte_range_tag.isSome

/-- Whether a segment carries a byte-range tag with no explicit start
offset. -/
def MediaSegment.hasNoStartByteRange (s : MediaSegment) : Bool :=
  match s.byte_range_tag with
  | some t => t.toRange.start.isNone
  | none => false

/-- The byte-range continuation rule as the spec states it: every
byte-range tag with no explicit start must sit on a segment whose
immediately preceding segment referenced the same URI with a byte range;
`prev` is the preceding segment, none at the head of the document. -/
def byteRangeContinuationOk : Option MediaSegment → List MediaSegment → Bool
  | _, [] => true
  | prev, s :: rest =>
    (if s.hasNoStartByteRange then
      match prev with
      | some ps => ps.hasByteRange && (ps.uri = s.uri : Bool)
      | none => false
    else true)
    && byteRangeContinuationOk (some s) rest

/-- The `last_range_uri` value validation's loop holds after a segment:
the segment's URI when it carried a byte range, nothing otherwise. -/
def prevRangeUri : Option MediaSegment → Option String
  | none => none
  | some ps => if ps.hasByteRange then some ps.uri else none

/-- A segment as the parser can produce it: its resolved key set and the
key set of its initialization map (when present) are both empty. -/
def goodSeg (s : MediaSegment) : Bool :=
  s.keys.isEmpty
  && (match s.map_tag with
      | some m => m.keys.isEmpty
      | none => true)

/-- The invariant of the parser state reachable from a default builder: an
empty rolling key list, only good segments, a good pending map and an
unset allowable excess duration. -/
def stInv (st : ParseState) : Prop :=
  st.availableKeyTags = []
  ∧ (∀ s ∈ st.segments, goodSeg s = true)
  ∧ (match st.segment.map_tag with
     | some m => m.keys = []
     | none => True)
  ∧ st.builder.allowable_excess_duration = none

/-- The per-segment key sets of a parse outcome, for stating results in a
decidable form. -/
def segKeysOf (r : Except Error MediaPlaylist) :
    Option (List (List ExtXKey)) :=
  match r with
  | .ok p => some (p.segments.map MediaSegment.keys)
  | .error _ => none

/-- The success condition of `ExtXMediaBuilder::build` as the spec states
it, to be proved equivalent to the source's check chain. -/
def extXMediaBuildOk (b : ExtXMediaBuilder) : Prop :=
  ∃ mt, b.media_type = some mt
    ∧ b.group_id ≠ none
    ∧ b.name ≠ none
    ∧ (mt = .subtitles → b.uri ≠ none)
    ∧ (mt = .closedCaptions → b.uri = none ∧ b.instream_id ≠ none)
    ∧ (mt ≠ .closedCaptions → b.instream_id = none)
    ∧ ¬(b.is_default.getD false = true ∧ b.is_autoselect.getD true = false)
    ∧ (mt ≠ .subtitles → b.is_forced = none)

/-- An in-stream identifier that keeps a rendition at V1: unset or one of
CC1-CC4 (the condition the claim about `ExtXMedia` versions states). -/
def instreamAtV1 : Option InStreamId → Bool
  | none => true
  | some .cc1 => true
  | some .cc2 => true
  | some .cc3 => true
  | some .cc4 => true
  | some _ => false

/-- A key of key-format fmtA pointing at a first key URI. -/
def kA1 : ExtXKey :=
  { method := "AES-128", uri := some "https://www.example.com/k1", iv := none,
    keyFormat := some "fmtA", keyFormatVersions := none }

/-- A second key of the same key-format fmtA. -/
def kA2 : ExtXKey :=
  { method := "AES-128", uri := some "https://www.example.com/k2", iv := none,
    keyFormat := some "fmtA", keyFormatVersions := none }

/-- The directive order KEY(fmt=A,k1), SEGMENT1, KEY(fmt=A,k2), SEGMENT2 of
the key-propagation clause, as classified lines. -/
def keyPropagationLines : List Line :=
  [Line.tag (.extM3u {}),
   Line.tag (.extXTargetDuration { duration := durFromSecs 10 }),
   Line.tag (.extXKey kA1),
   Line.tag (.extInf { duration := durFromSecs 1, title := none }),
   Line.uri "s1.ts",
   Line.tag (.extXKey kA2),
   Line.tag (.extInf { duration := durFromSecs 1, title := none }),
   Line.uri "s2.ts"]

/-- A plain segment with a given duration and URI and no optional tags. -/
def plainSeg (d : Duration) (u : String) : MediaSegment :=
  { keys := [], map_tag := none, byte_range_tag := none,
    date_range_tag := none, discontinuity_tag := none,
    inf_tag := { duration := d, title := none },
    program_date_time_tag := none, uri := u }

/-- The documentation example of lib.rs as classified lines (three
segments, a version directive, an end-list marker). -/
def demoLines : List Line :=
  [Line.tag (.extM3u {}),
   Line.tag (.extXTargetDuration { duration := durFromSecs 10 }),
   Line.tag (.extXVersion { version := .v3 }),
   Line.tag (.extInf { duration := 9009000000, title := none }),
   Line.uri "first.ts",
   Line.tag (.extInf { duration := 9009000000, title := none }),
   Line.uri "second.ts",
   Line.tag (.extInf { duration := 3003000000, title := none }),
   Line.uri "third.ts",
   Line.tag (.extXEndList {})]

/-- The playlist the documentation example parses to. -/
def demoPlaylist : MediaPlaylist :=
  { target_duration_tag := { duration := durFromSecs 10 },
    media_sequence_tag := none, discontinuity_sequence_tag := none,
    playlist_type_tag := none, i_frames_only_tag := none,
    independent_segments_tag := none, start_tag := none,
    end_list_tag := some {},
    segments := [plainSeg 9009000000 "first.ts",
                 plainSeg 9009000000 "second.ts",
                 plainSeg 3003000000 "third.ts"],
    allowable_excess_duration := 0 }

/-- A document whose discontinuity-sequence tag follows its only segment
(the only placement the parser accepts). -/
def discSeqLines : List Line :=
  [Line.tag (.extM3u {}),
   Line.tag (.extXTargetDuration { duration := durFromSecs 8 }),
   Line.tag (.extInf { duration := durFromSecs 8, title := none }),
   Line.uri "a.ts",
   Line.tag (.extXDiscontinuitySequence { seqNum := 3 })]

/-- The playlist `discSeqLines` parses to: it carries a
discontinuity-sequence tag, which its rendering places before every
segment. -/
def discSeqPlaylist : MediaPlaylist :=
  { target_duration_tag := { duration := durFromSecs 8 },
    media_sequence_tag := none,
    discontinuity_sequence_tag := some { seqNum := 3 },
    playlist_type_tag := none, i_frames_only_tag := none,
    independent_segments_tag := none, start_tag := none, end_list_tag := none,
    segments := [plainSeg (durFromSecs 8) "a.ts"],
    allowable_excess_duration := 0 }

/-- A document with a 9.509s segment against an 8s target duration: only
parseable under a 2s allowable excess. -/
def excessLines : List Line :=
  [Line.tag (.extM3u {}),
   Line.tag (.extXTargetDuration { duration := durFromSecs 8 }),
   Line.tag (.extInf { duration := 9509000000, title := none }),
   Line.uri "second.ts"]

/-- The playlist `excessLines` parses to under a 2s allowable excess: its
excess plays no part in rendering, so re-parsing it fails the duration
bound. -/
def excessPlaylist : MediaPlaylist :=
  { target_duration_tag := { duration := durFromSecs 8 },
    media_sequence_tag := none, discontinuity_sequence_tag := none,
    playlist_type_tag := none, i_frames_only_tag := none,
    independent_segments_tag := none, start_tag := none, end_list_tag := none,
    segments := [plainSeg 9509000000 "second.ts"],
    allowable_excess_duration := durFromSecs 2 }

/-- A discontinuity-sequence tag before any segment. -/
def discSeqEarlyLines : List Line :=
  [Line.tag (.extM3u {}),
   Line.tag (.extXTargetDuration { duration := durFromSecs 8 }),
   Line.tag (.extXDiscontinuitySequence { seqNum := 3 })]

/-- A discontinuity-sequence tag after a discontinuity marker tag. -/
def discSeqAfterMarkerLines : List Line :=
  [Line.tag (.extM3u {}),
   Line.tag (.extXTargetDuration { duration := durFromSecs 8 }),
   Line.tag (.extInf { duration := durFromSecs 8, title := none }),
   Line.uri "a.ts",
   Line.tag (.extXDiscontinuity {}),
   Line.tag (.extInf { duration := durFromSecs 8, title := none }),
   Line.uri "b.ts",
   Line.tag (.extXDiscontinuitySequence { seqNum := 3 })]

/-- A document exercising document-level tags at arbitrary positions:
several of them sit between the duration tag and the URI of a pending
segment, and several are repeated, the later occurrence carrying a
different value. -/
def docTagPlacementLines : List Line :=
  [Line.tag (.extM3u {}),
   Line.tag (.extXTargetDuration { duration := durFromSecs 8 }),
   Line.tag (.extXPlaylistType { playlistType := .event }),
   Line.tag (.extXMediaSequence { seqNum := 5 }),
   Line.tag (.extInf { duration := durFromSecs 1, title := none }),
   Line.tag (.extXPlaylistType { playlistType := .vod }),
   Line.tag (.extXMediaSequence { seqNum := 7 }),
   Line.uri "a.ts",
   Line.tag (.extXTargetDuration { duration := durFromSecs 9 }),
   Line.tag (.extXStart { timeOffsetMillis := -500, precise := true }),
   Line.tag (.extXIFramesOnly {}),
   Line.tag (.extXIndependentSegments {}),
   Line.tag (.extXEndList {}),
   Line.tag (.extXMediaSequence { seqNum := 9 })]

/-- The playlist `docTagPlacementLines` parses to: each document-level tag
holds the value of its last occurrence. -/
def docTagPlacementPlaylist : MediaPlaylist :=
  { target_duration_tag := { duration := durFromSecs 9 },
    media_sequence_tag := some { seqNum := 9 },
    discontinuity_sequence_tag := none,
    playlist_type_tag := some { playlistType := .vod },
    i_frames_only_tag := some {},
    independent_segments_tag := some {},
    start_tag := some { timeOffsetMillis := -500, precise := true },
    end_list_tag := some {},
    segments := [plainSeg (durFromSecs 1) "a.ts"],
    allowable_excess_duration := 0 }

/-- A segment with a byte range and a zero duration, for exercising the
continuation rule in isolation. -/
def rangeSeg (u : String) (br : Option ExtXByteRange) : MediaSegment :=
  { keys := [], map_tag := none, byte_range_tag := br,
    date_range_tag := none, discontinuity_tag := none,
    inf_tag := { duration := 0, title := none },
    program_date_time_tag := none, uri := u }

/-- An explicit-start byte range followed by a no-start continuation on the
same URI. -/
def contSegs : List MediaSegment :=
  [rangeSeg "a.ts" (some { range := { length := 100, start := some 0 } }),
   rangeSeg "a.ts" (some { range := { length := 100, start := none } })]

/-- Running the loop over an append: the second part runs from the first part's final state. -/
theorem runRest_append (a b : List Line) (st : ParseState) :
    runRest (a ++ b) st =
      match runRest a st with
      | .error e => .error e
      | .ok st2 => runRest b st2 := by
  induction a generalizing st with
  | nil => rfl
  | cons l rest ih =>
    simp only [List.cons_append, runRest]
    cases runLine l st with
    | error e => rfl
    | ok st2 => exact ih st2

/-- Chaining two runs of the loop across an append. -/
theorem runRest_chain {a b : List Line} {st st1 : ParseState}
    {r : Except Error ParseState}
    (h1 : runRest a st = .ok st1) (h2 : runRest b st1 = r) :
    runRest (a ++ b) st = r := by
  rw [runRest_append, h1]
  exact h2

/-- Replaying an optional media-sequence line sets exactly that builder field. -/
theorem runRest_opt_ms (o : Option ExtXMediaSequence) (st : ParseState)
    (h : st.builder.media_sequence_tag = none) :
    runRest (optTagLine Tag.extXMediaSequence o) st =
      .ok { st with builder := { st.builder with media_sequence_tag := o } } := by
  cases o with
  | none =>
    have h2 : ({ st with builder := { st.builder with media_sequence_tag := none } } :
        ParseState) = st := by rw [← h]
    rw [h2]
    rfl
  | some t => rfl

/-- An absent discontinuity-sequence tag contributes no line. -/
theorem runRest_opt_ds_none (st : ParseState) :
    runRest (optTagLine Tag.extXDiscontinuitySequence none) st = .ok st := rfl

/-- Replaying an optional playlist-type line sets exactly that builder field. -/
theorem runRest_opt_pt (o : Option ExtXPlaylistType) (st : ParseState)
    (h : st.builder.playlist_type_tag = none) :
    runRest (optTagLine Tag.extXPlaylistType o) st =
      .ok { st with builder := { st.builder with playlist_type_tag := o } } := by
  cases o with
  | none =>
    have h2 : ({ st with builder := { st.builder with playlist_type_tag := none } } :
        ParseState) = st := by rw [← h]
    rw [h2]
    rfl
  | some t => rfl

/-- Replaying an optional i-frames-only line sets exactly that builder field. -/
theorem runRest_opt_ifo (o : Option ExtXIFramesOnly) (st : ParseState)
    (h : st.builder.i_frames_only_tag = none) :
    runRest (optTagLine Tag.extXIFramesOnly o) st =
      .ok { st with builder := { st.builder with i_frames_only_tag := o } } := by
  cases o with
  | none =>
    have h2 : ({ st with builder := { st.builder with i_frames_only_tag := none } } :
        ParseState) = st := by rw [← h]
    rw [h2]
    rfl
  | some t => rfl

/-- Replaying an optional independent-segments line sets exactly that builder field. -/
theorem runRest_opt_ind (o : Option ExtXIndependentSegments) (st : ParseState)
    (h : st.builder.independent_segments_tag = none) :
    runRest (optTagLine Tag.extXIndependentSegments o) st =
      .ok { st with builder :=
        { st.builder with independent_segments_tag := o } } := by
  cases o with
  | none =>
    have h2 : ({ st with builder := { st.builder with independent_segments_tag := none } } :
        ParseState) = st := by rw [← h]
    rw [h2]
    rfl
  | some t => rfl

/-- Replaying an optional start line sets exactly that builder field. -/
theorem runRest_opt_start (o : Option ExtXStart) (st : ParseState)
    (h : st.builder.start_tag = none) :
    runRest (optTagLine Tag.extXStart o) st =
      .ok { st with builder := { st.builder with start_tag := o } } := by
  cases o with
  | none =>
    have h2 : ({ st with builder := { st.builder with start_tag := none } } :
        ParseState) = st := by rw [← h]
    rw [h2]
    rfl
  | some t => rfl

/-- Replaying an optional end-list line sets exactly that builder field. -/
theorem runRest_opt_el (o : Option ExtXEndList) (st : ParseState)
    (h : st.builder.end_list_tag = none) :
    runRest (optTagLine Tag.extXEndList o) st =
      .ok { st with builder := { st.builder with end_list_tag := o } } := by
  cases o with
  | none =>
    have h2 : ({ st with builder := { st.builder with end_list_tag := none } } :
        ParseState) = st := by rw [← h]
    rw [h2]
    rfl
  | some t => rfl

/-- Replaying one rendered good segment finalizes exactly that segment. -/
theorem runRest_segment_render (s : MediaSegment) (st : ParseState)
    (hgood : goodSeg s = true) (hseg : st.segment = {})
    (hkeys : st.availableKeyTags = []) :
    runRest s.render st =
      .ok { st with
        segments := st.segments ++ [s],
        hasDiscontinuityTag :=
          st.hasDiscontinuityTag || s.discontinuity_tag.isSome,
        segmentInProgress := false } := by
  obtain ⟨sseg, ssegs, sprog, sdisc, skeys, sbld⟩ := st
  simp only at hseg hkeys
  subst hseg; subst hkeys
  rcases s with ⟨ks, mp, br, dr, disc, inf, pdt, u⟩
  have hks : ks = [] := by
    simp [goodSeg, Bool.and_eq_true, List.isEmpty_iff] at hgood
    exact hgood.1
  subst hks
  cases mp with
  | none =>
    cases br <;> cases dr <;> cases disc <;> cases pdt <;>
      simp [MediaSegment.render, runRest, runLine, stepTag, stepUri,
        MediaSegmentBuilder.build, Bool.or_false]
  | some m =>
    have hm : m.keys = [] := by
      simp [goodSeg, Bool.and_eq_true, List.isEmpty_iff] at hgood
      exact hgood
    rcases m with ⟨mu, mr, mk⟩
    simp only at hm
    subst hm
    cases br <;> cases dr <;> cases disc <;> cases pdt <;>
      simp [MediaSegment.render, runRest, runLine, stepTag, stepUri,
        MediaSegmentBuilder.build, ExtXMap.setKeys, Bool.or_false]

/-- Replaying a rendered sequence of good segments appends exactly those segments. -/
theorem runRest_renderSegments (segs : List MediaSegment) :
    ∀ st : ParseState, (∀ s ∈ segs, goodSeg s = true) → st.segment = {} →
      st.availableKeyTags = [] → st.segmentInProgress = false →
      ∃ d, runRest (renderSegments segs) st =
        .ok { st with
          segments := st.segments ++ segs,
          hasDiscontinuityTag := d,
          segmentInProgress := false } := by
  induction segs with
  | nil =>
    intro st h hseg hk hp
    refine ⟨st.hasDiscontinuityTag, ?_⟩
    obtain ⟨sseg, ssegs, sprog, sdisc, skeys, sbld⟩ := st
    simp only at hp
    subst hp
    simp [renderSegments, runRest]
  | cons s rest ih =>
    intro st h hseg hk hp
    have hmid := runRest_segment_render s st (h s (List.mem_cons_self s rest))
      hseg hk
    obtain ⟨d, hd⟩ := ih
      { st with
        segments := st.segments ++ [s],
        hasDiscontinuityTag := st.hasDiscontinuityTag || s.discontinuity_tag.isSome,
        segmentInProgress := false }
      (fun x hx => h x (List.mem_cons_of_mem s hx)) hseg hk rfl
    refine ⟨d, ?_⟩
    rw [renderSegments, runRest_append, hmid]
    dsimp only
    rw [hd]
    simp [List.append_assoc]

/-- A frozen media segment carries its builder's key list and map tag. -/
theorem segBuild_ok {b : MediaSegmentBuilder} {seg : MediaSegment}
    (h : b.build = .ok seg) :
    seg.keys = b.keys.getD [] ∧ seg.map_tag = b.map_tag := by
  unfold MediaSegmentBuilder.build at h
  split at h
  · exact Except.noConfusion h
  · split at h
    · exact Except.noConfusion h
    · injection h with h2
      subst h2
      exact ⟨rfl, rfl⟩

/-- What a successful playlist build says about its builder: the fields transfer, the excess defaults, and the segment checks passed. -/
theorem build_ok_fields {b : MediaPlaylistBuilder} {p : MediaPlaylist}
    (h : b.build = .ok p) :
    b.target_duration_tag = some p.target_duration_tag
    ∧ b.segments = some p.segments
    ∧ b.media_sequence_tag = p.media_sequence_tag
    ∧ b.discontinuity_sequence_tag = p.discontinuity_sequence_tag
    ∧ b.playlist_type_tag = p.playlist_type_tag
    ∧ b.i_frames_only_tag = p.i_frames_only_tag
    ∧ b.independent_segments_tag = p.independent_segments_tag
    ∧ b.start_tag = p.start_tag
    ∧ b.end_list_tag = p.end_list_tag
    ∧ p.allowable_excess_duration = b.allowable_excess_duration.getD 0
    ∧ validateSegmentsLoop p.target_duration_tag.duration
        b.allowable_excess_duration none p.segments = .ok () := by
  unfold MediaPlaylistBuilder.build at h
  split at h
  · exact absurd h (by simp)
  · rename_i uval heqv
    split at h
    · exact absurd h (by simp)
    · rename_i td heqt
      split at h
      · exact absurd h (by simp)
      · rename_i segs heqs
        injection h with h2
        subst h2
        refine ⟨heqt, heqs, rfl, rfl, rfl, rfl, rfl, rfl, rfl, rfl, ?_⟩
        unfold MediaPlaylistBuilder.validate at heqv
        rw [heqt] at heqv
        dsimp only at heqv
        split at heqv
        · exact absurd heqv (by simp)
        · rename_i u2 heqm
          unfold MediaPlaylistBuilder.validateMediaSegments at heqm
          rw [heqs] at heqm
          cases u2
          exact heqm

/-- One parser step from a default-builder-reachable state preserves the parser invariant. -/
theorem runLine_inv {l : Line} {st st2 : ParseState} (hinv : stInv st)
    (h : runLine l st = .ok st2) : stInv st2 := by
  obtain ⟨hk, hsegs, hmap, hall⟩ := hinv
  cases l with
  | uri u =>
    simp only [runLine, stepUri] at h
    split at h
    · exact Except.noConfusion h
    · rename_i seg heqb
      injection h with h2
      subst h2
      have hsegok := segBuild_ok heqb
      refine ⟨hk, ?_, trivial, hall⟩
      intro x hx
      rcases List.mem_append.mp hx with hx2 | hx2
      · exact hsegs x hx2
      · have hxs : x = seg := by simpa using hx2
        subst hxs
        have h1 : x.keys = [] := by
          rw [hsegok.1]
          exact hk
        have h2 : x.map_tag = st.segment.map_tag := hsegok.2
        rcases hm2 : st.segment.map_tag with _ | m
        · simp [goodSeg, h1, h2, hm2]
        · rw [hm2] at hmap
          simp only at hmap
          simp [goodSeg, h1, h2, hm2, hmap]
  | tag t =>
    cases t with
    | extM3u t1 => exact Except.noConfusion h
    | extXVersion t1 =>
      injection h with h2; subst h2; exact ⟨hk, hsegs, hmap, hall⟩
    | extInf t1 =>
      injection h with h2; subst h2; exact ⟨hk, hsegs, hmap, hall⟩
    | extXByteRange t1 =>
      injection h with h2; subst h2; exact ⟨hk, hsegs, hmap, hall⟩
    | extXDateRange t1 =>
      injection h with h2; subst h2; exact ⟨hk, hsegs, hmap, hall⟩
    | extXDiscontinuity t1 =>
      injection h with h2; subst h2; exact ⟨hk, hsegs, hmap, hall⟩
    | extXKey t1 =>
      injection h with h2; subst h2
      refine ⟨?_, hsegs, hmap, hall⟩
      show keyTagStep t1 st.availableKeyTags = []
      rw [hk]
      rfl
    | extXMap t1 =>
      injection h with h2; subst h2
      refine ⟨hk, hsegs, ?_, hall⟩
      exact hk
    | extXProgramDateTime t1 =>
      injection h with h2; subst h2; exact ⟨hk, hsegs, hmap, hall⟩
    | extXTargetDuration t1 =>
      injection h with h2; subst h2; exact ⟨hk, hsegs, hmap, hall⟩
    | extXMediaSequence t1 =>
      injection h with h2; subst h2; exact ⟨hk, hsegs, hmap, hall⟩
    | extXDiscontinuitySequence t1 =>
      simp only [runLine, stepTag] at h
      split at h
      · exact Except.noConfusion h
      · split at h
        · exact Except.noConfusion h
        · injection h with h2; subst h2; exact ⟨hk, hsegs, hmap, hall⟩
    | extXEndList t1 =>
      injection h with h2; subst h2; exact ⟨hk, hsegs, hmap, hall⟩
    | extXPlaylistType t1 =>
      injection h with h2; subst h2; exact ⟨hk, hsegs, hmap, hall⟩
    | extXIFramesOnly t1 =>
      injection h with h2; subst h2; exact ⟨hk, hsegs, hmap, hall⟩
    | extXMedia t1 => exact Except.noConfusion h
    | extXStreamInf t1 => exact Except.noConfusion h
    | extXIFrameStreamInf t1 => exact Except.noConfusion h
    | extXSessionData t1 => exact Except.noConfusion h
    | extXSessionKey t1 => exact Except.noConfusion h
    | extXIndependentSegments t1 =>
      injection h with h2; subst h2; exact ⟨hk, hsegs, hmap, hall⟩
    | extXStart t1 =>
      injection h with h2; subst h2; exact ⟨hk, hsegs, hmap, hall⟩
    | unknown t1 =>
      injection h with h2; subst h2; exact ⟨hk, hsegs, hmap, hall⟩

/-- The parser loop preserves the parser invariant. -/
theorem runRest_inv :
    ∀ (lines : List Line) (st st2 : ParseState), stInv st →
      runRest lines st = .ok st2 → stInv st2 := by
  intro lines
  induction lines with
  | nil =>
    intro st st2 hinv h
    injection h with h2
    subst h2
    exact hinv
  | cons l rest ih =>
    intro st st2 hinv h
    simp only [runRest] at h
    cases hr : runLine l st with
    | error e => rw [hr] at h; exact Except.noConfusion h
    | ok stm =>
      rw [hr] at h
      exact ih stm st2 (runLine_inv hinv hr) h

/-- The initial state around a default builder satisfies the parser invariant. -/
theorem stInv_init : stInv (initParseState {}) := by
  refine ⟨rfl, ?_, trivial, rfl⟩
  intro x hx
  exact absurd hx (List.not_mem_nil x)

/-- A start-of-file marker tag anywhere in the remaining lines makes the loop fail. -/
theorem runRest_marker_errors :
    ∀ (lines : List Line) (st : ParseState),
      Line.tag (Tag.extM3u {}) ∈ lines → ∃ e, runRest lines st = .error e := by
  intro lines
  induction lines with
  | nil => intro st h; exact absurd h (List.not_mem_nil _)
  | cons l rest ih =>
    intro st h
    by_cases hl : l = Line.tag (Tag.extM3u {})
    · subst hl
      exact ⟨Error.invalidInput, rfl⟩
    · have hmem : Line.tag (Tag.extM3u {}) ∈ rest := by
        rcases List.mem_cons.mp h with h1 | h1
        · exact absurd h1.symm hl
        · exact h1
      cases hr : runLine l st with
      | error e => exact ⟨e, by simp [runRest, hr]⟩
      | ok st2 =>
        obtain ⟨e, he⟩ := ih st2 hmem
        exact ⟨e, by simp [runRest, hr, he]⟩

/-- Segment sequences force only V1 (their tags are spec-modelled at V1). -/
theorem segmentsRequiredVersion_v1 (segs : List MediaSegment) :
    segmentsRequiredVersion segs = .v1 := by
  induction segs with
  | nil => rfl
  | cons s rest ih =>
    simpa [segmentsRequiredVersion, List.foldl] using ih

/-- An optional field whose tag forces only V1 forces only V1. -/
theorem optionRequiredVersion_v1 {α : Type} (f : α → ProtocolVersion)
    (hf : ∀ t, f t = .v1) (o : Option α) :
    optionRequiredVersion f o = .v1 := by
  cases o <;> simp [optionRequiredVersion, hf]

/-- Every media playlist of this model requires only V1. -/
theorem requiredVersion_v1 (p : MediaPlaylist) : p.requiredVersion = .v1 := by
  have h1 : optionRequiredVersion ExtXMediaSequence.requiredVersion
      p.media_sequence_tag = .v1 :=
    optionRequiredVersion_v1 _ (fun t => rfl) _
  have h2 : optionRequiredVersion ExtXDiscontinuitySequence.requiredVersion
      p.discontinuity_sequence_tag = .v1 :=
    optionRequiredVersion_v1 _ (fun t => rfl) _
  have h3 : optionRequiredVersion ExtXPlaylistType.requiredVersion
      p.playlist_type_tag = .v1 :=
    optionRequiredVersion_v1 _ (fun t => rfl) _
  have h4 : optionRequiredVersion ExtXIFramesOnly.requiredVersion
      p.i_frames_only_tag = .v1 :=
    optionRequiredVersion_v1 _ (fun t => rfl) _
  have h5 : optionRequiredVersion ExtXIndependentSegments.requiredVersion
      p.independent_segments_tag = .v1 :=
    optionRequiredVersion_v1 _ (fun t => rfl) _
  have h6 : optionRequiredVersion ExtXStart.requiredVersion p.start_tag = .v1 :=
    optionRequiredVersion_v1 _ (fun t => rfl) _
  have h7 : optionRequiredVersion ExtXEndList.requiredVersion p.end_list_tag = .v1 :=
    optionRequiredVersion_v1 _ (fun t => rfl) _
  simp [MediaPlaylist.requiredVersion, List.foldl, h1, h2, h3, h4, h5, h6, h7,
    segmentsRequiredVersion_v1, ExtXTargetDuration.requiredVersion,
    ProtocolVersion.max, ProtocolVersion.toNat]

/-- A rendered segment contains no version line. -/
theorem versionLine_not_in_segment (v : ExtXVersion) (s : MediaSegment) :
    Line.tag (Tag.extXVersion v) ∉ s.render := by
  rcases s with ⟨ks, mp, br, dr, disc, inf, pdt, u⟩
  cases mp <;> cases br <;> cases dr <;> cases disc <;> cases pdt <;>
    simp [MediaSegment.render]

/-- A rendered segment sequence contains no version line. -/
theorem versionLine_not_in_renderSegments (v : ExtXVersion)
    (segs : List MediaSegment) :
    Line.tag (Tag.extXVersion v) ∉ renderSegments segs := by
  induction segs with
  | nil => simp [renderSegments]
  | cons s rest ih =>
    simp [renderSegments, List.mem_append, versionLine_not_in_segment v s, ih]

/-- An optional tag line of a non-version tag is no version line. -/
theorem versionLine_not_in_optTagLine {α : Type} (f : α → Tag)
    (hf : ∀ t v2, f t ≠ Tag.extXVersion v2) (o : Option α) (v : ExtXVersion) :
    Line.tag (Tag.extXVersion v) ∉ optTagLine f o := by
  cases o with
  | none => simp [optTagLine]
  | some t =>
    simp only [optTagLine, List.mem_singleton]
    intro h
    injection h with h2
    exact hf t v h2.symm

/-- The validation loop, started from the state a preceding segment leaves, succeeds exactly on the spec's byte-range continuation rule. -/
theorem validateLoop_continuation (target : Duration) (excess : Option Duration) :
    ∀ (segs : List MediaSegment) (prev : Option MediaSegment),
      (∀ s ∈ segs, roundToSeconds s.inf_tag.duration ≤ maxSegDuration target excess) →
      validateSegmentsLoop target excess (prevRangeUri prev) segs =
        (if byteRangeContinuationOk prev segs then Except.ok ()
         else Except.error Error.invalidInput) := by
  intro segs
  induction segs with
  | nil => intro prev h; rfl
  | cons s rest ih =>
    intro prev h
    have hdur : roundToSeconds s.inf_tag.duration ≤ maxSegDuration target excess :=
      h s (List.mem_cons_self s rest)
    have htl : ∀ x ∈ rest, roundToSeconds x.inf_tag.duration ≤ maxSegDuration target excess :=
      fun x hx => h x (List.mem_cons_of_mem s hx)
    simp only [validateSegmentsLoop]
    rw [if_neg (Nat.not_lt.mpr hdur)]
    cases hbr : s.byte_range_tag with
    | none =>
      have h1 : prevRangeUri (some s) = none := by
        simp [prevRangeUri, MediaSegment.hasByteRange, hbr]
      have h2 : s.hasNoStartByteRange = false := by
        simp [MediaSegment.hasNoStartByteRange, hbr]
      rw [show (none : Option String) = prevRangeUri (some s) from h1.symm, ih (some s) htl]
      simp [byteRangeContinuationOk, h2]
    | some tag =>
      dsimp only
      by_cases hs : tag.toRange.start = none
      · have h2 : s.hasNoStartByteRange = true := by
          simp [MediaSegment.hasNoStartByteRange, hbr, hs]
        rw [if_pos hs]
        cases prev with
        | none =>
          simp [byteRangeContinuationOk, h2, prevRangeUri]
        | some ps =>
          by_cases hpb : ps.hasByteRange
          · have hpu : prevRangeUri (some ps) = some ps.uri := by
              simp [prevRangeUri, hpb]
            rw [hpu]
            dsimp only
            by_cases hu : ps.uri = s.uri
            · rw [if_pos hu]
              have h3 : prevRangeUri (some s) = some ps.uri := by
                simp [prevRangeUri, MediaSegment.hasByteRange, hbr, hu]
              rw [show (some ps.uri : Option String) = prevRangeUri (some s) from h3.symm,
                 ih (some s) htl]
              simp [byteRangeContinuationOk, h2, hpb, hu]
            · rw [if_neg hu]
              simp [byteRangeContinuationOk, h2, hpb, hu]
          · have hpu : prevRangeUri (some ps) = none := by
              simp [prevRangeUri, hpb]
            rw [hpu]
            simp [byteRangeContinuationOk, h2, Bool.eq_false_iff.mp (by simpa using hpb)]
      · have h2 : s.hasNoStartByteRange = false := by
          rcases hv : tag.toRange.start with _ | v
          · exact absurd hv hs
          · simp [MediaSegment.hasNoStartByteRange, hbr, hv]
        rw [if_neg hs]
        have h3 : prevRangeUri (some s) = some s.uri := by
          simp [prevRangeUri, MediaSegment.hasByteRange, hbr]
        rw [show (some s.uri : Option String) = prevRangeUri (some s) from h3.symm,
           ih (some s) htl]
        simp [byteRangeContinuationOk, h2]

/-- The rendition-tag builder freezes a value exactly under the claimed attribute rules. -/
theorem extXMediaBuild_ok_iff (b : ExtXMediaBuilder) :
    (∃ m, b.build = Except.ok m) ↔ extXMediaBuildOk b := by
  cases hmt : b.media_type with
  | none =>
    simp [ExtXMediaBuilder.build, ExtXMediaBuilder.validate, hmt, extXMediaBuildOk]
  | some mt =>
    simp only [ExtXMediaBuilder.build, ExtXMediaBuilder.validate, hmt]
    split_ifs with h1 h2 h3 h4 h5 h6
    · constructor
      · rintro ⟨m, hm⟩; exact absurd hm (by simp)
      · rintro ⟨mt', hmt', hg, hn, hsub, hcc, hncc, hda, hforce⟩
        rw [hmt] at hmt'; injection hmt' with he; subst he
        exact absurd h1.2 (hsub h1.1)
    · constructor
      · rintro ⟨m, hm⟩; exact absurd hm (by simp)
      · rintro ⟨mt', hmt', hg, hn, hsub, hcc, hncc, hda, hforce⟩
        rw [hmt] at hmt'; injection hmt' with he; subst he
        exact absurd (hcc h2.1).1 h2.2
    · constructor
      · rintro ⟨m, hm⟩; exact absurd hm (by simp)
      · rintro ⟨mt', hmt', hg, hn, hsub, hcc, hncc, hda, hforce⟩
        rw [hmt] at hmt'; injection hmt' with he; subst he
        exact absurd h3.2 (hcc h3.1).2
    · constructor
      · rintro ⟨m, hm⟩; exact absurd hm (by simp)
      · rintro ⟨mt', hmt', hg, hn, hsub, hcc, hncc, hda, hforce⟩
        rw [hmt] at hmt'; injection hmt' with he; subst he
        exact absurd (hncc h4.1) h4.2
    · constructor
      · rintro ⟨m, hm⟩; exact absurd hm (by simp)
      · rintro ⟨mt', hmt', hg, hn, hsub, hcc, hncc, hda, hforce⟩
        rw [hmt] at hmt'; injection hmt' with he; subst he
        exact absurd h5 hda
    · constructor
      · rintro ⟨m, hm⟩; exact absurd hm (by simp)
      · rintro ⟨mt', hmt', hg, hn, hsub, hcc, hncc, hda, hforce⟩
        rw [hmt] at hmt'; injection hmt' with he; subst he
        exact absurd (hforce h6.1) h6.2
    · dsimp only
      cases hg : b.group_id with
      | none =>
        constructor
        · rintro ⟨m, hm⟩; exact absurd hm (by simp)
        · rintro ⟨mt', hmt', hgne, hn, hsub, hcc, hncc, hda, hforce⟩
          exact absurd hg hgne
      | some g =>
        cases hn : b.name with
        | none =>
          constructor
          · rintro ⟨m, hm⟩; exact absurd hm (by simp)
          · rintro ⟨mt', hmt', hgne, hnne, hsub, hcc, hncc, hda, hforce⟩
            exact absurd hn hnne
        | some n =>
          constructor
          · intro _
            refine ⟨mt, hmt, by simp [hg], by simp [hn], ?_, ?_, ?_, h5, ?_⟩
            · intro hsub hu; exact h1 ⟨hsub, hu⟩
            · intro hcond
              refine ⟨?_, ?_⟩
              · by_contra hu; exact h2 ⟨hcond, hu⟩
              · intro hi; exact h3 ⟨hcond, hi⟩
            · intro hncond; by_contra hi; exact h4 ⟨hncond, hi⟩
            · intro hns; by_contra hf; exact h6 ⟨hns, hf⟩
          · intro _
            exact ⟨_, rfl⟩

/-- Re-parsing a rendered playlist with empty key sets, a validated segment list and no discontinuity-sequence tag reproduces it. -/
theorem reparse_ok (td : ExtXTargetDuration) (ms : Option ExtXMediaSequence)
    (pt : Option ExtXPlaylistType) (ifo : Option ExtXIFramesOnly)
    (ind : Option ExtXIndependentSegments) (stt : Option ExtXStart)
    (el : Option ExtXEndList) (segs : List MediaSegment)
    (hgood : ∀ s ∈ segs, goodSeg s = true)
    (hval : validateSegmentsLoop td.duration none none segs = .ok ()) :
    parseMediaPlaylist
      (MediaPlaylist.render ⟨td, ms, none, pt, ifo, ind, stt, el, segs, 0⟩) {} =
    .ok ⟨td, ms, none, pt, ifo, ind, stt, el, segs, 0⟩ := by
  have hv1 := requiredVersion_v1 ⟨td, ms, none, pt, ifo, ind, stt, el, segs, 0⟩
  have hrender : (MediaPlaylist.render ⟨td, ms, none, pt, ifo, ind, stt, el, segs, 0⟩) =
      Line.tag (.extM3u {}) :: (Line.tag (.extXTargetDuration td) ::
        (optTagLine Tag.extXMediaSequence ms
         ++ (optTagLine Tag.extXDiscontinuitySequence none
         ++ (optTagLine Tag.extXPlaylistType pt
         ++ (optTagLine Tag.extXIFramesOnly ifo
         ++ (optTagLine Tag.extXIndependentSegments ind
         ++ (optTagLine Tag.extXStart stt
         ++ (renderSegments segs
         ++ optTagLine Tag.extXEndList el)))))))) := by
    simp [MediaPlaylist.render, hv1]
  rw [hrender]
  obtain ⟨d, hd⟩ := runRest_renderSegments segs
    { segment := {}, segments := [], segmentInProgress := false,
      hasDiscontinuityTag := false, availableKeyTags := [],
      builder :=
        { target_duration_tag := some td, media_sequence_tag := ms,
          playlist_type_tag := pt, i_frames_only_tag := ifo,
          independent_segments_tag := ind, start_tag := stt } }
    hgood rfl rfl rfl
  have hrun : runRest
      (optTagLine Tag.extXMediaSequence ms
       ++ (optTagLine Tag.extXDiscontinuitySequence none
       ++ (optTagLine Tag.extXPlaylistType pt
       ++ (optTagLine Tag.extXIFramesOnly ifo
       ++ (optTagLine Tag.extXIndependentSegments ind
       ++ (optTagLine Tag.extXStart stt
       ++ (renderSegments segs
       ++ optTagLine Tag.extXEndList el)))))))
      { segment := {}, segments := [], segmentInProgress := false,
        hasDiscontinuityTag := false, availableKeyTags := [],
        builder := { target_duration_tag := some td } } =
      .ok { segment := {}, segments := segs, segmentInProgress := false,
            hasDiscontinuityTag := d, availableKeyTags := [],
            builder :=
              { target_duration_tag := some td, media_sequence_tag := ms,
                playlist_type_tag := pt, i_frames_only_tag := ifo,
                independent_segments_tag := ind, start_tag := stt,
                end_list_tag := el } } := by
    refine runRest_chain (runRest_opt_ms ms _ rfl) ?_
    refine runRest_chain (runRest_opt_ds_none _) ?_
    refine runRest_chain (runRest_opt_pt pt _ rfl) ?_
    refine runRest_chain (runRest_opt_ifo ifo _ rfl) ?_
    refine runRest_chain (runRest_opt_ind ind _ rfl) ?_
    refine runRest_chain (runRest_opt_start stt _ rfl) ?_
    refine runRest_chain hd ?_
    exact runRest_opt_el el _ rfl
  have hrun2 : runRest
      (Line.tag (.extXTargetDuration td) ::
        (optTagLine Tag.extXMediaSequence ms
         ++ (optTagLine Tag.extXDiscontinuitySequence none
         ++ (optTagLine Tag.extXPlaylistType pt
         ++ (optTagLine Tag.extXIFramesOnly ifo
         ++ (optTagLine Tag.extXIndependentSegments ind
         ++ (optTagLine Tag.extXStart stt
         ++ (renderSegments segs
         ++ optTagLine Tag.extXEndList el))))))))
      (initParseState {}) =
      .ok { segment := {}, segments := segs, segmentInProgress := false,
            hasDiscontinuityTag := d, availableKeyTags := [],
            builder :=
              { target_duration_tag := some td, media_sequence_tag := ms,
                playlist_type_tag := pt, i_frames_only_tag := ifo,
                independent_segments_tag := ind, start_tag := stt,
                end_list_tag := el } } := hrun
  have hb : MediaPlaylistBuilder.build
      { target_duration_tag := some td, media_sequence_tag := ms,
        discontinuity_sequence_tag := none, playlist_type_tag := pt,
        i_frames_only_tag := ifo, independent_segments_tag := ind,
        start_tag := stt, end_list_tag := el, segments := some segs,
        allowable_excess_duration := none } =
      .ok ⟨td, ms, none, pt, ifo, ind, stt, el, segs, 0⟩ := by
    unfold MediaPlaylistBuilder.build MediaPlaylistBuilder.validate
      MediaPlaylistBuilder.validateMediaSegments
    dsimp only
    rw [hval]
    rfl
  show (match runRest
      (Line.tag (.extXTargetDuration td) ::
        (optTagLine Tag.extXMediaSequence ms
         ++ (optTagLine Tag.extXDiscontinuitySequence none
         ++ (optTagLine Tag.extXPlaylistType pt
         ++ (optTagLine Tag.extXIFramesOnly ifo
         ++ (optTagLine Tag.extXIndependentSegments ind
         ++ (optTagLine Tag.extXStart stt
         ++ (renderSegments segs
         ++ optTagLine Tag.extXEndList el))))))))
      (initParseState {}) with
    | .error e => Except.error e
    | .ok st => finishParse st) =
    .ok ⟨td, ms, none, pt, ifo, ind, stt, el, segs, 0⟩
  rw [hrun2]
  show (match MediaPlaylistBuilder.build
      { target_duration_tag := some td, media_sequence_tag := ms,
        discontinuity_sequence_tag := none, playlist_type_tag := pt,
        i_frames_only_tag := ifo, independent_segments_tag := ind,
        start_tag := stt, end_list_tag := el, segments := some segs,
        allowable_excess_duration := none } with
    | .error e => Except.error (Error.builderError e)
    | .ok p2 => Except.ok p2) =
    .ok ⟨td, ms, none, pt, ifo, ind, stt, el, segs, 0⟩
  rw [hb]

/-- C1: evidence for the key-propagation code bug. For the directive order KEY(fmt=A,k1), SEGMENT1, KEY(fmt=A,k2), SEGMENT2, the parser resolves the key set of BOTH segments to the empty set, not to {k1} and {k2} as the spec's rolling rule requires: the replace branch of lines 275-295 runs only on the empty rolling list (so each key tag is mapped away) and the push branch is unreachable. -/
theorem c1_key_tags_all_dropped :
    segKeysOf (mediaPlaylistFromLines keyPropagationLines) = some [[], []]
    ∧ segKeysOf (mediaPlaylistFromLines keyPropagationLines) ≠ some [[kA1], [kA2]]
    ∧ keyTagStep kA1 [] = [] ∧ keyTagStep kA2 [] = [] := by decide

/-- C2 (amended): for every playlist obtained by FromStr-parsing (a default builder) whose discontinuity-sequence tag is unset, parsing the rendered line stream succeeds and yields the same playlist. -/
theorem c2_round_trip (lines : List Line) (p : MediaPlaylist)
    (h : parseMediaPlaylist lines {} = .ok p)
    (hds : p.discontinuity_sequence_tag = none) :
    parseMediaPlaylist p.render {} = .ok p := by
  cases lines with
  | nil =>
    rw [show parseMediaPlaylist [] ({} : MediaPlaylistBuilder) =
      .error (.builderError ("target_duration_tag: field not set")) from rfl] at h
    exact Except.noConfusion h
  | cons first rest =>
    cases first with
    | uri u =>
      rw [show parseMediaPlaylist (Line.uri u :: rest) ({} : MediaPlaylistBuilder) =
        .error (.builderError ("inf_tag: field not set")) from rfl] at h
      exact Except.noConfusion h
    | tag t =>
      by_cases ht : t = Tag.extM3u {}
      · subst ht
        simp only [parseMediaPlaylist, if_true] at h
        cases hr : runRest rest (initParseState {}) with
        | error e => rw [hr] at h; exact Except.noConfusion h
        | ok st =>
          rw [hr] at h
          dsimp only at h
          obtain ⟨hk, hsegs2, hmap, hall⟩ :=
            runRest_inv rest (initParseState {}) st stInv_init hr
          unfold finishParse at h
          split at h
          · exact Except.noConfusion h
          · split at h
            · exact Except.noConfusion h
            · rename_i p2 heqb
              have h2 : p2 = p := Except.ok.inj h
              subst h2
              obtain ⟨hbt, hbs, hbm, hbd, hbp, hbi, hbind, hbst, hbel, hba,
                hbloop⟩ := build_ok_fields heqb
              have hseq : st.segments = p2.segments := Option.some.inj hbs
              have hgood : ∀ s ∈ p2.segments, goodSeg s = true :=
                hseq ▸ hsegs2
              have hvl : validateSegmentsLoop p2.target_duration_tag.duration
                  none none p2.segments = .ok () := by
                have h3 := hbloop
                rwa [show ({ st.builder with segments := some st.segments } :
                  MediaPlaylistBuilder).allowable_excess_duration = none
                  from hall] at h3
              have hexc : p2.allowable_excess_duration = 0 := by
                rw [hba, show ({ st.builder with segments := some st.segments } :
                  MediaPlaylistBuilder).allowable_excess_duration = none
                  from hall]
                rfl
              obtain ⟨td, ms, ds, pt, ifo, ind, stt, el, segs, exc⟩ := p2
              simp only at hds hexc hvl hgood
              subst hds
              subst hexc
              exact reparse_ok td ms pt ifo ind stt el segs hgood hvl
      · simp only [parseMediaPlaylist] at h
        rw [if_neg ht] at h
        exact Except.noConfusion h

/-- Witness for C2: the lib.rs documentation example round-trips through
render and parse. -/
theorem c2_round_trip_witness :
    parseMediaPlaylist demoLines {} = .ok demoPlaylist
    ∧ demoPlaylist.discontinuity_sequence_tag = none
    ∧ parseMediaPlaylist demoPlaylist.render {} = .ok demoPlaylist :=
  ⟨by decide, rfl, c2_round_trip demoLines demoPlaylist (by decide) rfl⟩

/-- Counterexample for C2 as stated: a parse-produced playlist carrying a
discontinuity-sequence tag renders that tag before every segment, and
re-parsing rejects it with InvalidInput; and a playlist produced by
builder-parse under a 2s allowable excess renders without that excess, so
re-parsing it fails the duration bound. -/
theorem c2_round_trip_counterexample :
    parseMediaPlaylist discSeqLines {} = .ok discSeqPlaylist
    ∧ parseMediaPlaylist discSeqPlaylist.render {} = .error .invalidInput
    ∧ parseMediaPlaylist excessLines
        { allowable_excess_duration := some (durFromSecs 2) } =
      .ok excessPlaylist
    ∧ parseMediaPlaylist excessPlaylist.render {} =
      .error (.builderError (tooLargeSegmentDurationMsg 9509000000
        (durFromSecs 8) (durFromSecs 8) "second.ts")) :=
  ⟨by decide, by decide, by decide, by decide⟩

/-- C3: the duration check of playlist validation passes exactly when the segment duration rounded to whole seconds (sub-second part below 0.5s rounds down, at least 0.5s rounds up) is at most target plus allowable excess, an unset excess behaves as zero, and a violation produces the Custom error naming the actual duration, the limit, the target duration and the segment URI; with the section-8 examples at T=8s. -/
theorem c3_duration_bound :
    (∀ (target excess d : Duration) (title : Option String) (u : String)
        ks mp dr disc pdt,
      MediaPlaylistBuilder.validateMediaSegments
        { segments := some
            [MediaSegment.mk ks mp none dr disc (ExtInf.mk d title) pdt u],
          allowable_excess_duration := some excess } target
      = if roundToSeconds d ≤ target + excess then .ok ()
        else .error (.custom (tooLargeSegmentDurationMsg d (target + excess) target u)))
    ∧ (∀ target last segs, validateSegmentsLoop target none last segs =
        validateSegmentsLoop target (some 0) last segs)
    ∧ roundToSeconds 9509000000 = durFromSecs 10
    ∧ roundToSeconds 9499999999 = durFromSecs 9
    ∧ roundToSeconds 9500000000 = durFromSecs 10
    ∧ validateSegmentsLoop (durFromSecs 8) (some (durFromSecs 1)) none
        [plainSeg 9509000000 "second.ts"] =
      .error (.custom (tooLargeSegmentDurationMsg 9509000000
        (durFromSecs 9) (durFromSecs 8) "second.ts"))
    ∧ validateSegmentsLoop (durFromSecs 8) (some (durFromSecs 2)) none
        [plainSeg 9509000000 "second.ts"] = .ok () := by
  refine ⟨?_, ?_, by decide, by decide, by decide, by decide, by decide⟩
  · intro target excess d title u ks mp dr disc pdt
    simp only [MediaPlaylistBuilder.validateMediaSegments, validateSegmentsLoop,
      maxSegDuration]
    by_cases h : roundToSeconds d ≤ target + excess
    · simp [h, Nat.not_lt.mpr h]
    · simp [h, Nat.lt_of_not_le h]
  · intro target last segs
    induction segs generalizing last with
    | nil => rfl
    | cons s rest ih =>
      have hmax0 : maxSegDuration target (some 0) = maxSegDuration target none := by
        simp [maxSegDuration]
      simp only [validateSegmentsLoop, hmax0]
      by_cases hgt : roundToSeconds s.inf_tag.duration > maxSegDuration target none
      · simp only [if_pos hgt]
      · simp only [if_neg hgt]
        cases hbr : s.byte_range_tag with
        | none => exact ih none
        | some tag =>
          by_cases hs : tag.toRange.start = none
          · simp only [if_pos hs]
            cases last with
            | none => rfl
            | some lu =>
              by_cases hu : lu = s.uri
              · simp only [if_pos hu]
                exact ih (some lu)
              · simp only [if_neg hu]
          · simp only [if_neg hs]
            exact ih (some s.uri)

/-- C4: under segments whose durations pass the bound, playlist validation succeeds exactly when every byte-range tag with no explicit start offset sits on a segment whose immediately preceding segment carried a byte-range tag on the same URI, and it fails with InvalidInput otherwise (a different URI, or a first byte-range tag with no start). -/
theorem c4_byte_range_continuation (target : Duration) (excess : Option Duration)
    (segs : List MediaSegment)
    (h : ∀ s ∈ segs, roundToSeconds s.inf_tag.duration ≤ maxSegDuration target excess) :
    validateSegmentsLoop target excess none segs =
      (if byteRangeContinuationOk none segs then Except.ok ()
       else Except.error Error.invalidInput) := by
  have := validateLoop_continuation target excess segs none h
  simpa [prevRangeUri] using this

/-- Witness for C4: an explicit range followed by a same-URI continuation validates. -/
theorem c4_byte_range_continuation_witness :
    (∀ s ∈ contSegs,
      roundToSeconds s.inf_tag.duration ≤ maxSegDuration (durFromSecs 10) none)
    ∧ validateSegmentsLoop (durFromSecs 10) none none contSegs = .ok () := by
  constructor
  · decide
  · rw [c4_byte_range_continuation (durFromSecs 10) none contSegs (by decide)]
    decide

/-- C5 (amended): empty input fails FromStr with a builder error for the unset target duration (not InvalidInput), a non-marker first tag line fails with the Custom first-line error (not InvalidInput), a URI first line fails with a segment-builder error, and a start-of-file marker appearing again after the first line makes parsing fail. -/
theorem c5_first_line_and_marker :
    (mediaPlaylistFromLines [] =
      .error (.builderError ("target_duration_tag: field not set")))
    ∧ (parseMediaPlaylist
        [Line.tag (.extXTargetDuration { duration := durFromSecs 8 })] {} =
      .error (.custom ("m3u8 doesn't start with #EXTM3U")))
    ∧ (∀ t rest b, t ≠ Tag.extM3u {} →
        parseMediaPlaylist (Line.tag t :: rest) b =
          .error (.custom ("m3u8 doesn't start with #EXTM3U")))
    ∧ (∀ u rest b, parseMediaPlaylist (Line.uri u :: rest) b =
        .error (.builderError ("inf_tag: field not set")))
    ∧ (∀ first rest b, Line.tag (Tag.extM3u {}) ∈ rest →
        ∃ e, parseMediaPlaylist (first :: rest) b = .error e) := by
  refine ⟨by decide, by decide, ?_, ?_, ?_⟩
  · intro t rest b ht
    simp [parseMediaPlaylist, ht]
  · intro u rest b
    rfl
  · intro first rest b hmem
    cases first with
    | tag t =>
      by_cases ht : t = Tag.extM3u {}
      · subst ht
        obtain ⟨e, he⟩ := runRest_marker_errors rest (initParseState b) hmem
        exact ⟨e, by simp [parseMediaPlaylist, he]⟩
      · exact ⟨Error.custom ("m3u8 doesn't start with #EXTM3U"),
          by simp [parseMediaPlaylist, ht]⟩
    | uri u => exact ⟨Error.builderError ("inf_tag: field not set"), rfl⟩

/-- Counterexample for C5 as stated: neither the empty input nor a
non-marker first line produces an InvalidInput error. -/
theorem c5_error_kind_counterexample :
    parseMediaPlaylist
      [Line.tag (.extXTargetDuration { duration := durFromSecs 8 })] {} =
      .error (.custom ("m3u8 doesn't start with #EXTM3U"))
    ∧ Error.custom ("m3u8 doesn't start with #EXTM3U") ≠ Error.invalidInput
    ∧ mediaPlaylistFromLines [] =
      .error (.builderError ("target_duration_tag: field not set"))
    ∧ Error.builderError ("target_duration_tag: field not set") ≠
      Error.invalidInput :=
  ⟨by decide, by decide, by decide, by decide⟩

/-- C6: the required version of a media playlist is the fold of the version maximum over the target-duration tag, each optional document-level tag that is set (V1 when unset) and the segments; rendering emits a version directive exactly when that version is not V1; and a rendition tag requires V7 exactly when its in-stream identifier is set to a value other than CC1-CC4, V1 otherwise. -/
theorem c6_required_version_aggregation :
    (∀ p : MediaPlaylist, p.requiredVersion = List.foldl ProtocolVersion.max .v1
      [p.target_duration_tag.requiredVersion,
       optionRequiredVersion ExtXMediaSequence.requiredVersion p.media_sequence_tag,
       optionRequiredVersion ExtXDiscontinuitySequence.requiredVersion
         p.discontinuity_sequence_tag,
       optionRequiredVersion ExtXPlaylistType.requiredVersion p.playlist_type_tag,
       optionRequiredVersion ExtXIFramesOnly.requiredVersion p.i_frames_only_tag,
       optionRequiredVersion ExtXIndependentSegments.requiredVersion
         p.independent_segments_tag,
       optionRequiredVersion ExtXStart.requiredVersion p.start_tag,
       optionRequiredVersion ExtXEndList.requiredVersion p.end_list_tag,
       segmentsRequiredVersion p.segments])
    ∧ (∀ p : MediaPlaylist,
        ((∃ v, Line.tag (Tag.extXVersion v) ∈ p.render) ↔ p.requiredVersion ≠ .v1))
    ∧ (∀ m : ExtXMedia,
        m.requiredVersion = if instreamAtV1 m.instream_id then .v1 else .v7) := by
  refine ⟨fun p => rfl, ?_, ?_⟩
  · intro p
    rw [requiredVersion_v1 p]
    simp only [ne_eq, not_true_eq_false, iff_false, not_exists]
    intro v
    have hm1 := versionLine_not_in_optTagLine Tag.extXMediaSequence
      (fun t v2 h2 => Tag.noConfusion h2) p.media_sequence_tag v
    have hm2 := versionLine_not_in_optTagLine Tag.extXDiscontinuitySequence
      (fun t v2 h2 => Tag.noConfusion h2) p.discontinuity_sequence_tag v
    have hm3 := versionLine_not_in_optTagLine Tag.extXPlaylistType
      (fun t v2 h2 => Tag.noConfusion h2) p.playlist_type_tag v
    have hm4 := versionLine_not_in_optTagLine Tag.extXIFramesOnly
      (fun t v2 h2 => Tag.noConfusion h2) p.i_frames_only_tag v
    have hm5 := versionLine_not_in_optTagLine Tag.extXIndependentSegments
      (fun t v2 h2 => Tag.noConfusion h2) p.independent_segments_tag v
    have hm6 := versionLine_not_in_optTagLine Tag.extXStart
      (fun t v2 h2 => Tag.noConfusion h2) p.start_tag v
    have hm7 := versionLine_not_in_optTagLine Tag.extXEndList
      (fun t v2 h2 => Tag.noConfusion h2) p.end_list_tag v
    have hs := versionLine_not_in_renderSegments v p.segments
    simp [MediaPlaylist.render, requiredVersion_v1 p, List.mem_append,
      hm1, hm2, hm3, hm4, hm5, hm6, hm7, hs]
  · intro m
    cases h : m.instream_id with
    | none => simp [ExtXMedia.requiredVersion, instreamAtV1, h]
    | some i => cases i <;> simp [ExtXMedia.requiredVersion, instreamAtV1, h]

/-- C7: building a rendition tag (the gate both the builder and the text
parser funnel through) succeeds exactly when a media type, group id and
name are present, a URI is present for subtitles, a URI is absent and an
in-stream identifier present for closed-captions, the in-stream identifier
is absent otherwise, the forced flag is only given for subtitles, and
default true does not meet an explicit autoselect false; each violation
yields the typed error naming the attribute, and no partial value is ever
produced (build returns either a complete tag or an error). -/
theorem c7_extXMedia_validation :
    (∀ b : ExtXMediaBuilder, (∃ m, b.build = Except.ok m) ↔ extXMediaBuildOk b)
    ∧ ExtXMediaBuilder.build {} =
      .error ((Error.missingAttribute "MEDIA-TYPE").toMessage)
    ∧ ExtXMediaBuilder.build
        { media_type := some .subtitles, group_id := some "g",
          name := some "n" } =
      .error ((Error.missingAttribute "URI").toMessage)
    ∧ ExtXMediaBuilder.build
        { media_type := some .closedCaptions, uri := some "u",
          group_id := some "g", name := some "n" } =
      .error ((Error.unexpectedAttribute "URI").toMessage)
    ∧ ExtXMediaBuilder.build
        { media_type := some .closedCaptions, group_id := some "g",
          name := some "n" } =
      .error ((Error.missingAttribute "INSTREAM-ID").toMessage)
    ∧ ExtXMediaBuilder.build
        { media_type := some .audio, group_id := some "g",
          name := some "n", instream_id := some .cc1 } =
      .error ((Error.unexpectedAttribute "INSTREAM-ID").toMessage)
    ∧ ExtXMediaBuilder.build
        { media_type := some .audio, group_id := some "g", name := some "n",
          is_default := some true, is_autoselect := some false } =
      .error ((Error.custom defaultAutoselectMsg).toMessage)
    ∧ ExtXMediaBuilder.build
        { media_type := some .audio, group_id := some "g", name := some "n",
          is_forced := some true } =
      .error (Error.invalidInput.toMessage)
    ∧ ExtXMediaBuilder.build { media_type := some .audio, name := some "n" } =
      .error ("group_id: field not set")
    ∧ ExtXMediaBuilder.build
        { media_type := some .audio, group_id := some "g" } =
      .error ("name: field not set") :=
  ⟨extXMediaBuild_ok_iff, by decide, by decide, by decide, by decide,
   by decide, by decide, by decide, by decide, by decide⟩

/-- C8: a discontinuity-sequence tag is accepted exactly when at least one segment has been finalized and no discontinuity marker tag has been seen; before any segment, or after a marker, parsing fails with InvalidInput, and in the legal position the tag is recorded. -/
theorem c8_discontinuity_sequence_placement :
    (∀ st t, (∃ st2, stepTag (.extXDiscontinuitySequence t) st = .ok st2) ↔
      (st.segments ≠ [] ∧ st.hasDiscontinuityTag = false))
    ∧ parseMediaPlaylist discSeqEarlyLines {} = .error .invalidInput
    ∧ parseMediaPlaylist discSeqAfterMarkerLines {} = .error .invalidInput
    ∧ parseMediaPlaylist discSeqLines {} = .ok discSeqPlaylist := by
  refine ⟨fun st t => ?_, by decide, by decide, by decide⟩
  simp only [stepTag]
  by_cases h1 : st.segments.isEmpty
  · simp [h1, List.isEmpty_iff.mp h1]
  · by_cases h2 : st.hasDiscontinuityTag
    · simp [h1, h2]
    · simp [h1, h2, List.isEmpty_iff, eq_self_iff_true]
      intro hc
      exact h1 (by simp [hc, List.isEmpty_iff])

/-- C9: ExtXMedia::new is total: for every media type, group and name it returns the tag with exactly those three fields and every other field unset or false, bypassing builder validation, so it constructs values the builder rejects (closed-captions without in-stream identifier, subtitles without URI), and such values still render via Display. -/
theorem c9_extXMedia_new_total :
    (∀ mt g n, ExtXMedia.new mt g n =
      { media_type := mt, uri := none, group_id := g, language := none,
        assoc_language := none, name := n, is_default := false,
        is_autoselect := false, is_forced := false, instream_id := none,
        characteristics := none, channels := none })
    ∧ (ExtXMedia.new .closedCaptions "cc" "n").render =
      "#EXT-X-MEDIA:TYPE=CLOSED-CAPTIONS,GROUP-ID=\"cc\",NAME=\"n\""
    ∧ (ExtXMedia.new .subtitles "subs" "n").render =
      "#EXT-X-MEDIA:TYPE=SUBTITLES,GROUP-ID=\"subs\",NAME=\"n\""
    ∧ ExtXMediaBuilder.build
        { media_type := some .closedCaptions, group_id := some "cc",
          name := some "n" } =
      .error ((Error.missingAttribute "INSTREAM-ID").toMessage)
    ∧ ExtXMediaBuilder.build
        { media_type := some .subtitles, group_id := some "subs",
          name := some "n" } =
      .error ((Error.missingAttribute "URI").toMessage) := by
  refine ⟨fun mt g n => rfl, by decide, by decide, by decide, by decide⟩

/-- C10: the document-level tags target-duration, media-sequence,
playlist-type, i-frames-only, independent-segments, start and end-list are
accepted in any state (each step only overwrites its builder field, so a
repetition is not an error and the last occurrence wins), including between
the tags of a pending segment, as the concrete document with repeated and
interleaved document-level tags shows. -/
theorem c10_document_level_tags :
    (∀ st t, stepTag (.extXTargetDuration t) st =
      .ok { st with builder := { st.builder with target_duration_tag := some t } })
    ∧ (∀ st t, stepTag (.extXMediaSequence t) st =
      .ok { st with builder := { st.builder with media_sequence_tag := some t } })
    ∧ (∀ st t, stepTag (.extXPlaylistType t) st =
      .ok { st with builder := { st.builder with playlist_type_tag := some t } })
    ∧ (∀ st t, stepTag (.extXIFramesOnly t) st =
      .ok { st with builder := { st.builder with i_frames_only_tag := some t } })
    ∧ (∀ st t, stepTag (.extXIndependentSegments t) st =
      .ok { st with builder :=
        { st.builder with independent_segments_tag := some t } })
    ∧ (∀ st t, stepTag (.extXStart t) st =
      .ok { st with builder := { st.builder with start_tag := some t } })
    ∧ (∀ st t, stepTag (.extXEndList t) st =
      .ok { st with builder := { st.builder with end_list_tag := some t } })
    ∧ parseMediaPlaylist docTagPlacementLines {} = .ok docTagPlacementPlaylist :=
  ⟨fun st t => rfl, fun st t => rfl, fun st t => rfl, fun st t => rfl,
   fun st t => rfl, fun st t => rfl, fun st t => rfl, by decide⟩

end HlsM3u8
